import Mathlib

/-!
Verification development for the NetSentry detection and feature-adaptation
core (src/app.py). The Python source is shallowly embedded: module-level
mutable state becomes an explicit state record threaded through the rule
pipeline, pandas dataframes become association lists from column names to
values, floats become rationals, and fallible code returns Except or Option.
-/

namespace NetSentry

/-- ASCII case-folding of a string, the embedding of str.lower (folding of
non-ASCII letters is elided; every payload and keyword at issue is ASCII). -/
def strToLower (s : String) : String :=
  ⟨s.data.map Char.toLower⟩

/-- ASCII upper-casing of a string, the embedding of str.upper. -/
def strToUpper (s : String) : String :=
  ⟨s.data.map Char.toUpper⟩

/-- Python slice s[:n]: the first n characters. -/
def strTake (s : String) (n : Nat) : String :=
  ⟨s.data.take n⟩

/-- Substring test on strings, the embedding of the Python `needle in hay`
membership test on str. -/
def strContainsSub (hay needle : String) : Bool :=
  (List.range (hay.data.length + 1)).any fun i => needle.data.isPrefixOf (hay.data.drop i)

/-- Suffix test on strings; embeds a regex search for an anchored pattern
such as `\.ru$` (the Python re special case of a match just before a final
newline is elided). -/
def strEndsWith (s suffix : String) : Bool :=
  suffix.data.isSuffixOf s.data

/-- Lower-case hex digit test, the character class of the pattern
`[a-f0-9]\x7b32,\x7d`. -/
def isHexChar (c : Char) : Bool :=
  (('a' ≤ c && c ≤ 'f') || ('0' ≤ c && c ≤ '9'))

/-- Search for a run of at least 32 hex characters, the embedding of
`re.search` for the pattern `[a-f0-9]\x7b32,\x7d`. -/
def hasHexRun32 (s : String) : Bool :=
  (List.range s.data.length).any fun i =>
    ((s.data.drop i).take 32).length == 32 && ((s.data.drop i).take 32).all isHexChar

/-- A value stored in the open-ended alert metadata mapping
(Dict[str, Any] in the source: the rules only ever store strings and ints). -/
inductive MetaVal where
  | str (s : String)
  | nat (n : Nat)
deriving DecidableEq, Repr

/-- Embedding of the NetworkLog pydantic model (validated input record). -/
structure NetworkLog where
  src_ip : String
  dst_ip : String
  protocol : String
  payload : Option String
  timestamp : String
deriving DecidableEq, Repr

/-- Embedding of the Alert pydantic model. -/
structure Alert where
  alert_id : String
  severity : String
  alert_type : String
  description : String
  src_ip : String
  dst_ip : String
  protocol : String
  timestamp : String
  metadata : List (String × MetaVal)
deriving DecidableEq, Repr

/-- The process-wide mutable state read and written by the rule evaluator:
the module-level alerts_database list and the login_attempts defaultdict
(modelled as a total function with default []). -/
structure AppState where
  alerts_database : List Alert
  login_attempts : String → List String

/-- The state at process start: no alerts, empty tracker. -/
def initialAppState : AppState :=
  { alerts_database := [], login_attempts := fun _ => [] }

/-- Embedding of the SUSPICIOUS_IPS blacklist (a Python set; membership is
all that is ever used, so a list is a faithful model). -/
def SUSPICIOUS_IPS : List String :=
  ["192.168.100.100", "10.0.0.666", "172.16.0.100", "203.0.113.0"]

/-- Embedding of SUSPICIOUS_DNS_PATTERNS: each regex is paired with the
Boolean matcher that embeds `re.search` of that pattern on the case-folded
payload. -/
def SUSPICIOUS_DNS_PATTERNS : List (String × (String → Bool)) :=
  [("\\.ru$", fun s => strEndsWith s ".ru"),
   ("\\.tk$", fun s => strEndsWith s ".tk"),
   ("malware", fun s => strContainsSub s "malware"),
   ("phishing", fun s => strContainsSub s "phishing"),
   ("botnet", fun s => strContainsSub s "botnet"),
   ("c2server", fun s => strContainsSub s "c2server"),
   ("[a-f0-9]\x7b32,\x7d", fun s => hasHexRun32 s)]

/-- Embedding of HTTP_SUSPICIOUS_KEYWORDS. -/
def HTTP_SUSPICIOUS_KEYWORDS : List String :=
  ["login", "admin", "password", "auth", "signin", "authenticate"]

/-- Embedding of generate_alert_id: the wall-clock part of the id is the
explicit `now` argument, the sequence part is len(alerts_database) + 1. -/
def generate_alert_id (now : String) (dbLen : Nat) : String :=
  "ALERT-" ++ now ++ "-" ++ toString (dbLen + 1)

/-- A detection rule: consumes the clock, one log and the shared state and
produces at most one alert plus the possibly mutated state. -/
abbrev Rule := String → NetworkLog → AppState → Option Alert × AppState

/-- Rule 1 (check_suspicious_ip): source address in the static blacklist. -/
def check_suspicious_ip : Rule := fun now log st =>
  if log.src_ip ∈ SUSPICIOUS_IPS then
    (some { alert_id := generate_alert_id now st.alerts_database.length
            severity := "HIGH"
            alert_type := "SUSPICIOUS_SOURCE_IP"
            description := "Traffic detected from known suspicious IP: " ++ log.src_ip
            src_ip := log.src_ip
            dst_ip := log.dst_ip
            protocol := log.protocol
            timestamp := log.timestamp
            metadata := [("reason", MetaVal.str "IP in blacklist")] }, st)
  else (none, st)

/-- The tracker mutation of rule 2: append the timestamp to the source
entry, then keep only the last 10 entries. -/
def track_attempts (m : String → List String) (src ts : String) : String → List String :=
  let appended := m src ++ [ts]
  let truncated := if appended.length > 10 then appended.drop (appended.length - 10) else appended
  fun ip => if ip = src then truncated else m ip

/-- Rule 2 (check_login_attempts): HTTP logs with a credential keyword in
the case-folded payload are tracked; once the tracked entry holds at least
5 timestamps an alert is emitted on every such log. The Python truthiness
test `log.payload` requires the payload to be present and non-empty. -/
def check_login_attempts : Rule := fun now log st =>
  match log.payload with
  | none => (none, st)
  | some payload =>
    if log.protocol = "HTTP" ∧ payload ≠ "" then
      if HTTP_SUSPICIOUS_KEYWORDS.any (fun keyword => strContainsSub (strToLower payload) keyword) then
        let m2 := track_attempts st.login_attempts log.src_ip log.timestamp
        let st2 : AppState := { st with login_attempts := m2 }
        if 5 ≤ (m2 log.src_ip).length then
          (some { alert_id := generate_alert_id now st.alerts_database.length
                  severity := "MEDIUM"
                  alert_type := "EXCESSIVE_LOGIN_ATTEMPTS"
                  description := "Multiple login attempts detected from " ++ log.src_ip
                  src_ip := log.src_ip
                  dst_ip := log.dst_ip
                  protocol := log.protocol
                  timestamp := log.timestamp
                  metadata := [("attempt_count", MetaVal.nat (m2 log.src_ip).length),
                               ("payload_snippet", MetaVal.str (strTake payload 100))] }, st2)
        else (none, st2)
      else (none, st)
    else (none, st)

/-- Rule 3 (check_suspicious_dns): on DNS logs with a non-empty payload,
the ordered pattern list is scanned and the first match (List.find?
embeds the early-returning for loop) produces the alert. -/
def check_suspicious_dns : Rule := fun now log st =>
  match log.payload with
  | none => (none, st)
  | some payload =>
    if log.protocol = "DNS" ∧ payload ≠ "" then
      match SUSPICIOUS_DNS_PATTERNS.find? (fun pp => pp.2 (strToLower payload)) with
      | some pp =>
        (some { alert_id := generate_alert_id now st.alerts_database.length
                severity := "HIGH"
                alert_type := "SUSPICIOUS_DNS_QUERY"
                description := "Suspicious DNS query detected: " ++ payload
                src_ip := log.src_ip
                dst_ip := log.dst_ip
                protocol := log.protocol
                timestamp := log.timestamp
                metadata := [("query", MetaVal.str payload),
                             ("matched_pattern", MetaVal.str pp.1)] }, st)
      | none => (none, st)
    else (none, st)

/-- Append an optional alert to the alerts database, the body of the rule
loop of analyze_log. -/
def pushAlert (st : AppState) : Option Alert → AppState
  | none => st
  | some a => { st with alerts_database := st.alerts_database ++ [a] }

/-- Run a list of rules in order, collecting produced alerts and appending
each to the alerts database as soon as it is produced. -/
def runRules (now : String) (rules : List Rule) (log : NetworkLog) (st : AppState) :
    List Alert × AppState :=
  match rules with
  | [] => ([], st)
  | r :: rest =>
    let p := r now log st
    match p.1 with
    | none => runRules now rest log p.2
    | some a =>
      let q := runRules now rest log (pushAlert p.2 (some a))
      (a :: q.1, q.2)

/-- Embedding of analyze_log: run the three detection rules in their fixed
order; every alert is appended to the alerts database and returned. -/
def analyze_log (now : String) (log : NetworkLog) (st : AppState) : List Alert × AppState :=
  runRules now [check_suspicious_ip, check_login_attempts, check_suspicious_dns] log st

/-- Fold a sequence of traffic logs through analyze_log, keeping the final
state; this is how a sequence of calls to the analyze endpoint evolves the
process state. -/
def runLogs (now : String) (logs : List NetworkLog) (st : AppState) : AppState :=
  logs.foldl (fun s l => (analyze_log now l s).2) st

/-- Decidable form of the rule 2 guard: HTTP protocol, payload present and
non-empty, and some credential keyword in the case-folded payload. -/
def keywordHit (log : NetworkLog) : Bool :=
  (log.protocol == "HTTP") &&
    (match log.payload with
     | some p => (p != "") && HTTP_SUSPICIOUS_KEYWORDS.any (fun k => strContainsSub (strToLower p) k)
     | none => false)

/-- Decidable predicate for the specific qualifying logs of the login
cadence claim: HTTP, non-empty payload whose case-folded text contains the
keyword "login". -/
def loginHit (log : NetworkLog) : Bool :=
  (log.protocol == "HTTP") &&
    (match log.payload with
     | some p => (p != "") && strContainsSub (strToLower p) "login"
     | none => false)

/-- A cell of the feature dataframe: numeric (Python float/int, modelled as
a rational) or a raw categorical string. -/
inductive FeatVal where
  | num (q : ℚ)
  | str (s : String)
deriving DecidableEq, Repr

/-- Embedding of the MLFeatures pydantic model: the 41 KDDCUP99 fields with
their declared defaults. -/
structure MLFeatures where
  duration : ℚ := 0
  protocol_type : String := "tcp"
  service : String := "http"
  flag : String := "SF"
  src_bytes : ℚ := 0
  dst_bytes : ℚ := 0
  land : ℚ := 0
  wrong_fragment : ℚ := 0
  urgent : ℚ := 0
  hot : ℚ := 0
  num_failed_logins : ℚ := 0
  logged_in : ℚ := 0
  num_compromised : ℚ := 0
  root_shell : ℚ := 0
  su_attempted : ℚ := 0
  num_root : ℚ := 0
  num_file_creations : ℚ := 0
  num_shells : ℚ := 0
  num_access_files : ℚ := 0
  num_outbound_cmds : ℚ := 0
  is_host_login : ℚ := 0
  is_guest_login : ℚ := 0
  count : ℚ := 0
  srv_count : ℚ := 0
  serror_rate : ℚ := 0
  srv_serror_rate : ℚ := 0
  rerror_rate : ℚ := 0
  srv_rerror_rate : ℚ := 0
  same_srv_rate : ℚ := 0
  diff_srv_rate : ℚ := 0
  srv_diff_host_rate : ℚ := 0
  dst_host_count : ℚ := 0
  dst_host_srv_count : ℚ := 0
  dst_host_same_srv_rate : ℚ := 0
  dst_host_diff_srv_rate : ℚ := 0
  dst_host_same_src_port_rate : ℚ := 0
  dst_host_srv_diff_host_rate : ℚ := 0
  dst_host_serror_rate : ℚ := 0
  dst_host_srv_serror_rate : ℚ := 0
  dst_host_rerror_rate : ℚ := 0
  dst_host_srv_rerror_rate : ℚ := 0

/-- Embedding of features.dict(): the single-row dataframe built from the
feature record, as an association list in field order. -/
def MLFeatures.dict (f : MLFeatures) : List (String × FeatVal) :=
  [("duration", FeatVal.num f.duration),
   ("protocol_type", FeatVal.str f.protocol_type),
   ("service", FeatVal.str f.service),
   ("flag", FeatVal.str f.flag),
   ("src_bytes", FeatVal.num f.src_bytes),
   ("dst_bytes", FeatVal.num f.dst_bytes),
   ("land", FeatVal.num f.land),
   ("wrong_fragment", FeatVal.num f.wrong_fragment),
   ("urgent", FeatVal.num f.urgent),
   ("hot", FeatVal.num f.hot),
   ("num_failed_logins", FeatVal.num f.num_failed_logins),
   ("logged_in", FeatVal.num f.logged_in),
   ("num_compromised", FeatVal.num f.num_compromised),
   ("root_shell", FeatVal.num f.root_shell),
   ("su_attempted", FeatVal.num f.su_attempted),
   ("num_root", FeatVal.num f.num_root),
   ("num_file_creations", FeatVal.num f.num_file_creations),
   ("num_shells", FeatVal.num f.num_shells),
   ("num_access_files", FeatVal.num f.num_access_files),
   ("num_outbound_cmds", FeatVal.num f.num_outbound_cmds),
   ("is_host_login", FeatVal.num f.is_host_login),
   ("is_guest_login", FeatVal.num f.is_guest_login),
   ("count", FeatVal.num f.count),
   ("srv_count", FeatVal.num f.srv_count),
   ("serror_rate", FeatVal.num f.serror_rate),
   ("srv_serror_rate", FeatVal.num f.srv_serror_rate),
   ("rerror_rate", FeatVal.num f.rerror_rate),
   ("srv_rerror_rate", FeatVal.num f.srv_rerror_rate),
   ("same_srv_rate", FeatVal.num f.same_srv_rate),
   ("diff_srv_rate", FeatVal.num f.diff_srv_rate),
   ("srv_diff_host_rate", FeatVal.num f.srv_diff_host_rate),
   ("dst_host_count", FeatVal.num f.dst_host_count),
   ("dst_host_srv_count", FeatVal.num f.dst_host_srv_count),
   ("dst_host_same_srv_rate", FeatVal.num f.dst_host_same_srv_rate),
   ("dst_host_diff_srv_rate", FeatVal.num f.dst_host_diff_srv_rate),
   ("dst_host_same_src_port_rate", FeatVal.num f.dst_host_same_src_port_rate),
   ("dst_host_srv_diff_host_rate", FeatVal.num f.dst_host_srv_diff_host_rate),
   ("dst_host_serror_rate", FeatVal.num f.dst_host_serror_rate),
   ("dst_host_srv_serror_rate", FeatVal.num f.dst_host_srv_serror_rate),
   ("dst_host_rerror_rate", FeatVal.num f.dst_host_rerror_rate),
   ("dst_host_srv_rerror_rate", FeatVal.num f.dst_host_srv_rerror_rate)]

/-- A fitted sklearn LabelEncoder artifact: its sorted classes_ array.
transform maps a value to its position and fails on unseen values. -/
structure LabelEncoder where
  classes : List String
deriving DecidableEq, Repr

/-- Embedding of LabelEncoder.transform on one value: the position of the
value in classes_, failing (ValueError) when the value was never seen. -/
def LabelEncoder.transform (le : LabelEncoder) (v : String) : Option Nat :=
  le.classes.indexOf? v

/-- A frozen binary classifier artifact: predict yields the class index of
row 0, predict_proba its per-class probability row. -/
structure BinClassifier where
  predictFn : List (String × ℚ) → Nat
  predictProbaFn : List (String × ℚ) → List ℚ

/-- A frozen multi-class classifier artifact: classes_ holds the class
names, predict yields a class name, predict_proba a probability row
aligned with classes_. -/
structure MultiClassifier where
  classes : List String
  predictFn : List (String × ℚ) → String
  predictProbaFn : List (String × ℚ) → List ℚ

/-- The ml_models global dictionary plus the models_loaded flag. -/
structure MLState where
  binary : Option BinClassifier
  multi : Option MultiClassifier
  encoders : Option (List (String × LabelEncoder))
  features : Option (List String)
  attack_mapping : Option (List (String × String))
  models_loaded : Bool

/-- Embedding of load_ml_models: the five joblib.load calls run in order
inside one try block, each either producing its artifact or throwing; the
first throw aborts the rest, keeping the assignments already made, and
models_loaded is true only when every load succeeded. -/
def load_ml_models (dirExists : Bool)
    (b : Except String BinClassifier) (m : Except String MultiClassifier)
    (e : Except String (List (String × LabelEncoder)))
    (f : Except String (List String))
    (am : Except String (List (String × String))) : MLState :=
  if dirExists then
    match b with
    | .error _ => ⟨none, none, none, none, none, false⟩
    | .ok bv =>
      match m with
      | .error _ => ⟨some bv, none, none, none, none, false⟩
      | .ok mv =>
        match e with
        | .error _ => ⟨some bv, some mv, none, none, none, false⟩
        | .ok ev =>
          match f with
          | .error _ => ⟨some bv, some mv, some ev, none, none, false⟩
          | .ok fv =>
            match am with
            | .error _ => ⟨some bv, some mv, some ev, some fv, none, false⟩
            | .ok av => ⟨some bv, some mv, some ev, some fv, some av, true⟩
  else ⟨none, none, none, none, none, false⟩

/-- The fixed categorical column list of prepare_features_for_prediction. -/
def categorical_cols : List String :=
  ["protocol_type", "service", "flag"]

/-- One iteration of the categorical-encoding loop of
prepare_features_for_prediction: when the column has a fitted encoder, a
col_encoded column is appended whose value is the encoder position of the
raw column value, with the caught-ValueError fallback 0 for values never
seen during training. -/
def encode_col (encoders : List (String × LabelEncoder)) (d : List (String × FeatVal))
    (col : String) : List (String × FeatVal) :=
  match encoders.lookup col with
  | none => d
  | some le =>
    let enc : ℚ :=
      match d.lookup col with
      | some (FeatVal.str v) =>
        match le.transform v with
        | some i => (i : ℚ)
        | none => 0
      | _ => 0
    d ++ [(col ++ "_encoded", FeatVal.num enc)]

/-- The dataframe after the whole categorical-encoding loop of
prepare_features_for_prediction: the raw feature dict with the encoded
columns appended for every categorical column having a fitted encoder. -/
def encoded_df (encoders : List (String × LabelEncoder)) (features : MLFeatures) :
    List (String × FeatVal) :=
  categorical_cols.foldl (encode_col encoders) features.dict

/-- Embedding of X.astype(float): every cell must be numeric; a raw
categorical string cell makes the cast throw (parsing of numeric text is
elided: the only string cells are the three raw categorical columns). -/
def castAll : List (String × FeatVal) → Option (List (String × ℚ))
  | [] => some []
  | (k, FeatVal.num q) :: rest => (castAll rest).map (fun r => (k, q) :: r)
  | (_, FeatVal.str _) :: _ => none

/-- Embedding of prepare_features_for_prediction: encode categoricals, fail
with the configuration error when the trained feature ordering was never
loaded, then project the dataframe onto the trained ordering (copying
present columns, zero-filling absent ones) and cast to float. -/
def prepare_features_for_prediction (st : MLState) (features : MLFeatures) :
    Except String (List (String × ℚ)) :=
  match st.encoders with
  | none => Except.error "argument of type NoneType is not iterable"
  | some encoders =>
    let df := encoded_df encoders features
    match st.features with
    | none => Except.error "Feature list not loaded from training"
    | some training_features =>
      let X0 := training_features.map
        (fun feature =>
          match df.lookup feature with
          | some v => (feature, v)
          | none => (feature, FeatVal.num 0))
      match castAll X0 with
      | some X => Except.ok X
      | none => Except.error "could not convert string to float"

/-- Embedding of Python round(x, 4): scale, round to an integer, unscale
(the float half-even tie behavior is immaterial to the claims). -/
def round4 (q : ℚ) : ℚ :=
  ((round (q * 10000) : ℤ) : ℚ) / 10000

/-- Embedding of the MLPredictionResponse model; probabilities is an
ordered mapping from class label to probability. -/
structure MLPredictionResponse where
  status : String
  model_available : Bool
  prediction : Option String
  prediction_label : Option String
  confidence : Option ℚ
  probabilities : Option (List (String × ℚ))
  message : String
  timestamp : String

/-- The fixed response returned by both prediction entry points when the
required classifier artifact is not loaded. -/
def modelUnavailableResponse (now : String) : MLPredictionResponse :=
  { status := "error"
    model_available := false
    prediction := none
    prediction_label := none
    confidence := none
    probabilities := none
    message := "ML model not loaded. Please train the model first."
    timestamp := now }

/-- The response produced by the except branch of a prediction entry point:
the model was available but inference (or preparation) threw. -/
def predictionFailedResponse (now msg : String) : MLPredictionResponse :=
  { status := "error"
    model_available := true
    prediction := none
    prediction_label := none
    confidence := none
    probabilities := none
    message := "Prediction failed: " ++ msg
    timestamp := now }

/-- Embedding of predict_binary. Inference on the prepared vector uses the
opaque classifier artifact; out-of-range probability indexing is the
caught IndexError. The percent rendering inside the success message elides
numeric formatting. -/
def predict_binary (now : String) (st : MLState) (features : MLFeatures) :
    MLPredictionResponse :=
  if st.models_loaded = false then modelUnavailableResponse now
  else
    match st.binary with
    | none => modelUnavailableResponse now
    | some model =>
      match prepare_features_for_prediction st features with
      | .error e => predictionFailedResponse now e
      | .ok X =>
        let prediction := model.predictFn X
        let probabilities := model.predictProbaFn X
        let prediction_label := if prediction = 0 then "Normal" else "Attack"
        match probabilities.get? prediction, probabilities.get? 0, probabilities.get? 1 with
        | some c, some p0, some p1 =>
          { status := "success"
            model_available := true
            prediction := some (toString prediction)
            prediction_label := some prediction_label
            confidence := some (round4 c)
            probabilities := some [("Normal", round4 p0), ("Attack", round4 p1)]
            message := "Prediction: " ++ prediction_label
            timestamp := now }
        | _, _, _ => predictionFailedResponse now "index out of bounds"

/-- Embedding of predict_multiclass. The confidence is looked up through
list(classes).index(prediction): the position of the predicted class NAME
in classes_, which throws (caught) when the prediction is not a known
class; probability-row indexing out of range is the caught IndexError. -/
def predict_multiclass (now : String) (st : MLState) (features : MLFeatures) :
    MLPredictionResponse :=
  if st.models_loaded = false then modelUnavailableResponse now
  else
    match st.multi with
    | none => modelUnavailableResponse now
    | some model =>
      match prepare_features_for_prediction st features with
      | .error e => predictionFailedResponse now e
      | .ok X =>
        let prediction := model.predictFn X
        let probabilities := model.predictProbaFn X
        let classes := model.classes
        let prediction_label := strToUpper prediction
        match classes.indexOf? prediction with
        | none => predictionFailedResponse now "not in list"
        | some idx =>
          match probabilities.get? idx with
          | none => predictionFailedResponse now "index out of bounds"
          | some p =>
            { status := "success"
              model_available := true
              prediction := some prediction
              prediction_label := some prediction_label
              confidence := some (round4 p)
              probabilities := some ((classes.zip probabilities).map
                (fun cp => (strToUpper cp.1, round4 cp.2)))
              message := "Prediction: " ++ prediction_label
              timestamp := now }

/-! ### Helper lemmas about the tracker mutation -/

theorem track_attempts_self (m : String → List String) (src ts : String) :
    track_attempts m src ts src =
      (if (m src ++ [ts]).length > 10
       then (m src ++ [ts]).drop ((m src ++ [ts]).length - 10)
       else m src ++ [ts]) := by
  simp [track_attempts]

theorem track_attempts_other (m : String → List String) (src ts ip : String) (h : ip ≠ src) :
    track_attempts m src ts ip = m ip := by
  simp [track_attempts, h]

theorem track_attempts_length (m : String → List String) (src ts : String) :
    (track_attempts m src ts src).length = min ((m src).length + 1) 10 := by
  rw [track_attempts_self]
  split
  · rename_i h
    simp only [List.length_drop, List.length_append, List.length_singleton] at *
    omega
  · rename_i h
    simp only [List.length_append, List.length_singleton] at *
    omega

theorem track_attempts_le_ten (m : String → List String) (src ts : String) :
    (track_attempts m src ts src).length ≤ 10 := by
  rw [track_attempts_length]; omega

/-! ### Per-rule characterization lemmas -/

theorem check_suspicious_ip_state (now : String) (log : NetworkLog) (st : AppState) :
    (check_suspicious_ip now log st).2 = st := by
  unfold check_suspicious_ip
  split <;> rfl

theorem check_suspicious_ip_fires (now : String) (log : NetworkLog) (st : AppState)
    (h : log.src_ip ∈ SUSPICIOUS_IPS) :
    check_suspicious_ip now log st =
      (some { alert_id := generate_alert_id now st.alerts_database.length
              severity := "HIGH"
              alert_type := "SUSPICIOUS_SOURCE_IP"
              description := "Traffic detected from known suspicious IP: " ++ log.src_ip
              src_ip := log.src_ip
              dst_ip := log.dst_ip
              protocol := log.protocol
              timestamp := log.timestamp
              metadata := [("reason", MetaVal.str "IP in blacklist")] }, st) := by
  unfold check_suspicious_ip
  simp [h]

theorem check_suspicious_ip_some (now : String) (log : NetworkLog) (st : AppState)
    (a : Alert) (h : (check_suspicious_ip now log st).1 = some a) :
    a.alert_type = "SUSPICIOUS_SOURCE_IP" ∧ a.severity = "HIGH" := by
  unfold check_suspicious_ip at h
  split at h
  · cases h; exact ⟨rfl, rfl⟩
  · cases h

theorem check_suspicious_dns_state (now : String) (log : NetworkLog) (st : AppState) :
    (check_suspicious_dns now log st).2 = st := by
  unfold check_suspicious_dns
  cases log.payload with
  | none => rfl
  | some payload =>
    dsimp only
    split
    · split <;> rfl
    · rfl

theorem check_suspicious_dns_some (now : String) (log : NetworkLog) (st : AppState)
    (a : Alert) (h : (check_suspicious_dns now log st).1 = some a) :
    a.alert_type = "SUSPICIOUS_DNS_QUERY" ∧ a.severity = "HIGH" := by
  unfold check_suspicious_dns at h
  cases hp : log.payload with
  | none => rw [hp] at h; cases h
  | some payload =>
    rw [hp] at h
    dsimp only at h
    split at h
    · split at h
      · cases h; exact ⟨rfl, rfl⟩
      · cases h
    · cases h

theorem check_login_attempts_not_hit (now : String) (log : NetworkLog) (st : AppState)
    (h : keywordHit log = false) :
    check_login_attempts now log st = (none, st) := by
  unfold check_login_attempts
  cases hp : log.payload with
  | none => rfl
  | some payload =>
    dsimp only
    split
    · rename_i hcond
      split
      · rename_i hkw
        exfalso
        rw [keywordHit, hp] at h
        simp [hcond.1, hcond.2, hkw] at h
      · rfl
    · rfl

theorem check_login_attempts_hit (now : String) (log : NetworkLog) (st : AppState)
    (h : keywordHit log = true) :
    ∃ payload, log.payload = some payload ∧
      check_login_attempts now log st =
        (if 5 ≤ (track_attempts st.login_attempts log.src_ip log.timestamp log.src_ip).length
         then some
           { alert_id := generate_alert_id now st.alerts_database.length
             severity := "MEDIUM"
             alert_type := "EXCESSIVE_LOGIN_ATTEMPTS"
             description := "Multiple login attempts detected from " ++ log.src_ip
             src_ip := log.src_ip
             dst_ip := log.dst_ip
             protocol := log.protocol
             timestamp := log.timestamp
             metadata := [("attempt_count",
                            MetaVal.nat (track_attempts st.login_attempts log.src_ip
                              log.timestamp log.src_ip).length),
                          ("payload_snippet", MetaVal.str (strTake payload 100))] }
         else none,
         { st with login_attempts := track_attempts st.login_attempts log.src_ip log.timestamp }) := by
  unfold keywordHit at h
  cases hp : log.payload with
  | none => rw [hp] at h; simp at h
  | some payload =>
    rw [hp] at h
    simp only [Bool.and_eq_true, beq_iff_eq, bne_iff_ne, ne_eq] at h
    obtain ⟨hproto, hne, hkw⟩ := h
    refine ⟨payload, rfl, ?_⟩
    unfold check_login_attempts
    rw [hp]
    dsimp only
    rw [if_pos ⟨hproto, hne⟩, if_pos hkw]
    split <;> rfl

theorem check_login_attempts_db (now : String) (log : NetworkLog) (st : AppState) :
    (check_login_attempts now log st).2.alerts_database = st.alerts_database := by
  cases hk : keywordHit log with
  | false => rw [check_login_attempts_not_hit now log st hk]
  | true =>
    obtain ⟨payload, -, heq⟩ := check_login_attempts_hit now log st hk
    rw [heq]

theorem check_login_attempts_tracker (now : String) (log : NetworkLog) (st : AppState) :
    (check_login_attempts now log st).2.login_attempts =
      (if keywordHit log then track_attempts st.login_attempts log.src_ip log.timestamp
       else st.login_attempts) := by
  cases hk : keywordHit log with
  | false => rw [check_login_attempts_not_hit now log st hk]; simp
  | true =>
    obtain ⟨payload, -, heq⟩ := check_login_attempts_hit now log st hk
    rw [heq]; simp

theorem check_login_attempts_some (now : String) (log : NetworkLog) (st : AppState)
    (a : Alert) (h : (check_login_attempts now log st).1 = some a) :
    a.alert_type = "EXCESSIVE_LOGIN_ATTEMPTS" ∧ a.severity = "MEDIUM" ∧
      a.metadata.lookup "attempt_count" =
        some (MetaVal.nat (track_attempts st.login_attempts log.src_ip
          log.timestamp log.src_ip).length) ∧
      5 ≤ (track_attempts st.login_attempts log.src_ip log.timestamp log.src_ip).length := by
  cases hk : keywordHit log with
  | false => rw [check_login_attempts_not_hit now log st hk] at h; cases h
  | true =>
    obtain ⟨payload, -, heq⟩ := check_login_attempts_hit now log st hk
    rw [heq] at h
    dsimp only at h
    split at h
    · rename_i hfire
      cases h
      refine ⟨rfl, rfl, ?_, hfire⟩
      rfl
    · cases h

theorem check_login_attempts_none_of_lt (now : String) (log : NetworkLog) (st : AppState)
    (hk : keywordHit log = true)
    (hlt : (track_attempts st.login_attempts log.src_ip log.timestamp log.src_ip).length < 5) :
    (check_login_attempts now log st).1 = none := by
  obtain ⟨payload, -, heq⟩ := check_login_attempts_hit now log st hk
  rw [heq]
  dsimp only
  rw [if_neg (by omega)]

theorem check_login_attempts_some_of_ge (now : String) (log : NetworkLog) (st : AppState)
    (hk : keywordHit log = true)
    (hge : 5 ≤ (track_attempts st.login_attempts log.src_ip log.timestamp log.src_ip).length) :
    (check_login_attempts now log st).1.isSome = true := by
  obtain ⟨payload, -, heq⟩ := check_login_attempts_hit now log st hk
  rw [heq]
  dsimp only
  rw [if_pos hge]
  rfl

/-! ### The rule pipeline -/

theorem runRules_nil (now : String) (log : NetworkLog) (st : AppState) :
    runRules now [] log st = ([], st) := rfl

theorem runRules_cons (now : String) (r : Rule) (rules : List Rule)
    (log : NetworkLog) (st : AppState) :
    runRules now (r :: rules) log st =
      (match (r now log st).1 with
       | none => runRules now rules log (r now log st).2
       | some a =>
         ((a :: (runRules now rules log (pushAlert (r now log st).2 (some a))).1,
           (runRules now rules log (pushAlert (r now log st).2 (some a))).2))) := by
  rw [runRules]

theorem pushAlert_none (st : AppState) : pushAlert st none = st := rfl

theorem pushAlert_some (st : AppState) (a : Alert) :
    pushAlert st (some a) = { st with alerts_database := st.alerts_database ++ [a] } := rfl

theorem pushAlert_login_attempts (st : AppState) (o : Option Alert) :
    (pushAlert st o).login_attempts = st.login_attempts := by
  cases o <;> rfl

/-- Explicit decomposition of analyze_log into the three rules run in
order, each alert pushed onto the alerts database as it is produced. -/
theorem analyze_log_eq (now : String) (log : NetworkLog) (st : AppState) :
    analyze_log now log st =
      (let p1 := check_suspicious_ip now log st
       let st1 := pushAlert p1.2 p1.1
       let p2 := check_login_attempts now log st1
       let st2 := pushAlert p2.2 p2.1
       let p3 := check_suspicious_dns now log st2
       let st3 := pushAlert p3.2 p3.1
       (p1.1.toList ++ p2.1.toList ++ p3.1.toList, st3)) := by
  unfold analyze_log
  rw [runRules_cons]
  cases h1 : (check_suspicious_ip now log st).1 with
  | none =>
    simp only [h1, pushAlert_none]
    rw [runRules_cons]
    cases h2 : (check_login_attempts now log (check_suspicious_ip now log st).2).1 with
    | none =>
      simp only [h2, pushAlert_none]
      rw [runRules_cons]
      cases h3 : (check_suspicious_dns now log
          (check_login_attempts now log (check_suspicious_ip now log st).2).2).1 with
      | none => simp only [h3, pushAlert_none, runRules_nil, Option.toList_none,
          List.append_nil, List.nil_append]
      | some a3 => simp only [h3, pushAlert_none, runRules_nil, Option.toList_none,
          Option.toList_some, List.append_nil, List.nil_append]
    | some a2 =>
      simp only [h2]
      rw [runRules_cons]
      cases h3 : (check_suspicious_dns now log
          (pushAlert (check_login_attempts now log (check_suspicious_ip now log st).2).2
            (some a2))).1 with
      | none => simp only [h3, pushAlert_none, runRules_nil, Option.toList_none,
          Option.toList_some, List.append_nil, List.nil_append, List.singleton_append, List.cons_append]
      | some a3 => simp only [h3, pushAlert_none, runRules_nil, Option.toList_none,
          Option.toList_some, List.append_nil, List.nil_append, List.singleton_append, List.cons_append]
  | some a1 =>
    simp only [h1]
    rw [runRules_cons]
    cases h2 : (check_login_attempts now log
        (pushAlert (check_suspicious_ip now log st).2 (some a1))).1 with
    | none =>
      simp only [h2, pushAlert_none]
      rw [runRules_cons]
      cases h3 : (check_suspicious_dns now log
          (check_login_attempts now log
            (pushAlert (check_suspicious_ip now log st).2 (some a1))).2).1 with
      | none => simp only [h3, pushAlert_none, runRules_nil, Option.toList_none,
          Option.toList_some, List.append_nil, List.nil_append, List.singleton_append, List.cons_append]
      | some a3 => simp only [h3, pushAlert_none, runRules_nil, Option.toList_none,
          Option.toList_some, List.append_nil, List.nil_append, List.singleton_append, List.cons_append]
    | some a2 =>
      simp only [h2]
      rw [runRules_cons]
      cases h3 : (check_suspicious_dns now log
          (pushAlert (check_login_attempts now log
            (pushAlert (check_suspicious_ip now log st).2 (some a1))).2 (some a2))).1 with
      | none => simp only [h3, pushAlert_none, runRules_nil, Option.toList_none,
          Option.toList_some, List.append_nil, List.nil_append, List.singleton_append, List.cons_append]
      | some a3 => simp only [h3, pushAlert_none, runRules_nil, Option.toList_none,
          Option.toList_some, List.append_nil, List.nil_append, List.singleton_append, List.cons_append]

theorem pushAlert_some_db (st : AppState) (a : Alert) :
    (pushAlert st (some a)).alerts_database = st.alerts_database ++ [a] := rfl

/-- Generic form of the sink-append property: when no rule itself rewrites
the alerts database, running the rules appends exactly the returned alerts
to it, in order. -/
theorem runRules_db (now : String) (rules : List Rule) (log : NetworkLog) (st : AppState)
    (h : ∀ r ∈ rules, ∀ n l s, (r n l s).2.alerts_database = s.alerts_database) :
    (runRules now rules log st).2.alerts_database =
      st.alerts_database ++ (runRules now rules log st).1 := by
  induction rules generalizing st with
  | nil => simp [runRules_nil]
  | cons r rest ih =>
    rw [runRules_cons]
    cases hr : (r now log st).1 with
    | none =>
      dsimp only
      rw [ih _ (fun r' hr' => h r' (List.mem_cons_of_mem _ hr')),
        h r (List.mem_cons_self _ _) now log st]
    | some a =>
      dsimp only
      rw [ih _ (fun r' hr' => h r' (List.mem_cons_of_mem _ hr')), pushAlert_some_db,
        h r (List.mem_cons_self _ _) now log st, List.append_assoc, List.singleton_append]

theorem analyze_log_db (now : String) (log : NetworkLog) (st : AppState) :
    (analyze_log now log st).2.alerts_database =
      st.alerts_database ++ (analyze_log now log st).1 := by
  unfold analyze_log
  apply runRules_db
  intro r hr n l s
  simp only [List.mem_cons, List.mem_singleton, List.not_mem_nil, or_false] at hr
  rcases hr with h | h | h <;> subst h
  · rw [check_suspicious_ip_state]
  · rw [check_login_attempts_db]
  · rw [check_suspicious_dns_state]

/-- The attempt tracker after one call to analyze_log: rules 1 and 3 never
touch it, rule 2 applies track_attempts exactly when its guard holds. -/
theorem analyze_log_tracker (now : String) (log : NetworkLog) (st : AppState) :
    (analyze_log now log st).2.login_attempts =
      (if keywordHit log then track_attempts st.login_attempts log.src_ip log.timestamp
       else st.login_attempts) := by
  rw [analyze_log_eq]
  dsimp only
  simp only [pushAlert_login_attempts, check_suspicious_dns_state,
    check_login_attempts_tracker, check_suspicious_ip_state]

theorem runLogs_cons (now : String) (l : NetworkLog) (ls : List NetworkLog) (st : AppState) :
    runLogs now (l :: ls) st = runLogs now ls (analyze_log now l st).2 := rfl

theorem analyze_log_tracker_le (now : String) (log : NetworkLog) (st : AppState) (ip : String)
    (h : (st.login_attempts ip).length ≤ 10) :
    ((analyze_log now log st).2.login_attempts ip).length ≤ 10 := by
  rw [analyze_log_tracker]
  split
  · by_cases hip : ip = log.src_ip
    · subst hip; exact track_attempts_le_ten _ _ _
    · rw [track_attempts_other _ _ _ _ hip]; exact h
  · exact h

theorem runLogs_tracker_le (now : String) (logs : List NetworkLog) (st : AppState)
    (h : ∀ ip, (st.login_attempts ip).length ≤ 10) :
    ∀ ip, ((runLogs now logs st).login_attempts ip).length ≤ 10 := by
  induction logs generalizing st with
  | nil => exact h
  | cons l ls ih =>
    rw [runLogs_cons]
    exact ih _ (fun ip => analyze_log_tracker_le now l st ip (h ip))

theorem analyze_log_tracker_src (now : String) (log : NetworkLog) (st : AppState)
    (hq : keywordHit log = true) :
    ((analyze_log now log st).2.login_attempts log.src_ip).length =
      min ((st.login_attempts log.src_ip).length + 1) 10 := by
  rw [analyze_log_tracker]
  simp only [hq, if_true]
  exact track_attempts_length _ _ _

theorem analyze_log_tracker_other (now : String) (log : NetworkLog) (st : AppState)
    (ip : String) (hip : ip ≠ log.src_ip) :
    (analyze_log now log st).2.login_attempts ip = st.login_attempts ip := by
  rw [analyze_log_tracker]
  split
  · exact track_attempts_other _ _ _ _ hip
  · rfl

/-- After a run of qualifying logs from one source, the tracked entry for
that source has length min (initial + number of logs) 10. -/
theorem runLogs_tracker_count (now : String) (items : List NetworkLog) (s : String)
    (st : AppState) (hs : ∀ l ∈ items, l.src_ip = s) (hq : ∀ l ∈ items, keywordHit l = true)
    (hk : (st.login_attempts s).length ≤ 10) :
    ((runLogs now items st).login_attempts s).length =
      min ((st.login_attempts s).length + items.length) 10 := by
  induction items generalizing st with
  | nil =>
    simp only [runLogs, List.foldl_nil, List.length_nil, Nat.add_zero]
    omega
  | cons l ls ih =>
    rw [runLogs_cons]
    have hls : l.src_ip = s := hs l (List.mem_cons_self _ _)
    have hstep : ((analyze_log now l st).2.login_attempts s).length =
        min ((st.login_attempts s).length + 1) 10 := by
      rw [← hls]
      exact analyze_log_tracker_src now l st (hq l (List.mem_cons_self _ _))
    rw [ih _ (fun x hx => hs x (List.mem_cons_of_mem _ hx))
      (fun x hx => hq x (List.mem_cons_of_mem _ hx)) (by rw [hstep]; omega), hstep]
    simp only [List.length_cons]
    omega

/-- Every alert returned by analyze_log carries the type and severity of
the rule that produced it. -/
theorem analyze_log_mem_types (now : String) (log : NetworkLog) (st : AppState)
    (a : Alert) (ha : a ∈ (analyze_log now log st).1) :
    (a.alert_type = "SUSPICIOUS_SOURCE_IP" ∧ a.severity = "HIGH") ∨
    (a.alert_type = "EXCESSIVE_LOGIN_ATTEMPTS" ∧ a.severity = "MEDIUM") ∨
    (a.alert_type = "SUSPICIOUS_DNS_QUERY" ∧ a.severity = "HIGH") := by
  rw [analyze_log_eq] at ha
  dsimp only at ha
  rw [List.mem_append, List.mem_append] at ha
  rcases ha with (ha | ha) | ha
  · rw [Option.mem_toList, Option.mem_def] at ha
    exact Or.inl (check_suspicious_ip_some now log st a ha)
  · rw [Option.mem_toList, Option.mem_def] at ha
    have h := check_login_attempts_some now log _ a ha
    exact Or.inr (Or.inl ⟨h.1, h.2.1⟩)
  · rw [Option.mem_toList, Option.mem_def] at ha
    exact Or.inr (Or.inr (check_suspicious_dns_some now log _ a ha))

/-- Count of EXCESSIVE_LOGIN_ATTEMPTS alerts produced by one analyze_log
call: exactly one when the rule 2 guard holds and the post-append tracked
count reaches the threshold, zero otherwise. -/
theorem analyze_log_excessive_count (now : String) (log : NetworkLog) (st : AppState) :
    (analyze_log now log st).1.countP (fun a => a.alert_type == "EXCESSIVE_LOGIN_ATTEMPTS") =
      if keywordHit log = true ∧
          5 ≤ (track_attempts st.login_attempts log.src_ip log.timestamp log.src_ip).length
      then 1 else 0 := by
  rw [analyze_log_eq]
  dsimp only
  rw [List.countP_append, List.countP_append]
  have h1 : (check_suspicious_ip now log st).1.toList.countP
      (fun a => a.alert_type == "EXCESSIVE_LOGIN_ATTEMPTS") = 0 := by
    cases hx : (check_suspicious_ip now log st).1 with
    | none => rfl
    | some a =>
      obtain ⟨ht, -⟩ := check_suspicious_ip_some now log st a hx
      simp [List.countP_cons, ht]
  have h3 : ∀ s2, (check_suspicious_dns now log s2).1.toList.countP
      (fun a => a.alert_type == "EXCESSIVE_LOGIN_ATTEMPTS") = 0 := by
    intro s2
    cases hx : (check_suspicious_dns now log s2).1 with
    | none => rfl
    | some a =>
      obtain ⟨ht, -⟩ := check_suspicious_dns_some now log s2 a hx
      simp [List.countP_cons, ht]
  have h2 : ∀ s1 : AppState, s1.login_attempts = st.login_attempts →
      (check_login_attempts now log s1).1.toList.countP
        (fun a => a.alert_type == "EXCESSIVE_LOGIN_ATTEMPTS") =
        (if keywordHit log = true ∧
            5 ≤ (track_attempts st.login_attempts log.src_ip log.timestamp log.src_ip).length
         then 1 else 0) := by
    intro s1 hsame
    cases hk : keywordHit log with
    | false =>
      rw [check_login_attempts_not_hit now log s1 hk]
      simp [hk]
    | true =>
      obtain ⟨payload, -, heq⟩ := check_login_attempts_hit now log s1 hk
      rw [heq]
      dsimp only
      rw [hsame]
      by_cases hge : 5 ≤ (track_attempts st.login_attempts log.src_ip
          log.timestamp log.src_ip).length
      · rw [if_pos hge, if_pos ⟨rfl, hge⟩]
        simp [List.countP_cons]
      · rw [if_neg hge, if_neg (fun hc => hge hc.2)]
        rfl
  rw [h1, h3, h2 _ (by rw [pushAlert_login_attempts, check_suspicious_ip_state])]
  simp only [Nat.zero_add, Nat.add_zero]

/-- Count of SUSPICIOUS_SOURCE_IP alerts produced by one analyze_log call
on a blacklisted source: exactly one, from rule 1 alone. -/
theorem analyze_log_srcip_count (now : String) (log : NetworkLog) (st : AppState)
    (h : log.src_ip ∈ SUSPICIOUS_IPS) :
    (analyze_log now log st).1.countP (fun a => a.alert_type == "SUSPICIOUS_SOURCE_IP") = 1 := by
  rw [analyze_log_eq]
  dsimp only
  rw [List.countP_append, List.countP_append]
  have h1 : (check_suspicious_ip now log st).1.toList.countP
      (fun a => a.alert_type == "SUSPICIOUS_SOURCE_IP") = 1 := by
    rw [check_suspicious_ip_fires now log st h]
    simp [List.countP_cons]
  have h2 : ∀ s1, (check_login_attempts now log s1).1.toList.countP
      (fun a => a.alert_type == "SUSPICIOUS_SOURCE_IP") = 0 := by
    intro s1
    cases hx : (check_login_attempts now log s1).1 with
    | none => rfl
    | some a =>
      obtain ⟨ht, -⟩ := check_login_attempts_some now log s1 a hx
      simp [List.countP_cons, ht]
  have h3 : ∀ s2, (check_suspicious_dns now log s2).1.toList.countP
      (fun a => a.alert_type == "SUSPICIOUS_SOURCE_IP") = 0 := by
    intro s2
    cases hx : (check_suspicious_dns now log s2).1 with
    | none => rfl
    | some a =>
      obtain ⟨ht, -⟩ := check_suspicious_dns_some now log s2 a hx
      simp [List.countP_cons, ht]
  rw [h1, h2, h3]

theorem keywordHit_of_loginHit (log : NetworkLog) (h : loginHit log = true) :
    keywordHit log = true := by
  unfold loginHit at h
  unfold keywordHit
  cases hp : log.payload with
  | none => rw [hp] at h; simp at h
  | some p =>
    rw [hp] at h
    simp only [Bool.and_eq_true] at h ⊢
    refine ⟨h.1, h.2.1, ?_⟩
    simp only [HTTP_SUSPICIOUS_KEYWORDS, List.any_cons, Bool.or_eq_true]
    exact Or.inl h.2.2

/-- The first-match search of find? returns the element at the first index
whose predicate holds. -/
theorem find?_first {α : Type} (p : α → Bool) (l : List α) (i : Nat) (hi : i < l.length)
    (hp : p (l.get ⟨i, hi⟩) = true)
    (hless : ∀ j (hj : j < i), p (l.get ⟨j, Nat.lt_trans hj hi⟩) = false) :
    l.find? p = some (l.get ⟨i, hi⟩) := by
  induction l generalizing i with
  | nil => exact absurd hi (Nat.not_lt_zero i)
  | cons x xs ih =>
    cases i with
    | zero =>
      have hp' : p x = true := hp
      rw [List.find?_cons_of_pos _ hp']
      rfl
    | succ k =>
      have hx : p x = false := hless 0 (Nat.succ_pos k)
      rw [List.find?_cons_of_neg _ (by simp [hx])]
      exact ih k (Nat.lt_of_succ_lt_succ hi) hp
        (fun j hj => hless (j + 1) (Nat.succ_lt_succ hj))

/-! ### Claim theorems for the rule evaluator -/

/-- C5: analyze_log runs the three detection rules in the fixed order
(suspicious-IP, login-attempts, suspicious-DNS) on the threaded state,
regardless of whether earlier rules matched; the returned list is the
concatenation of their outputs in rule order, and the alerts database
after the call is the database before it plus exactly the returned
alerts, in order (so an empty return means nothing was appended). -/
theorem C5_pipeline_order_and_sink (now : String) (log : NetworkLog) (st : AppState) :
    (analyze_log now log st).1 =
      (let p1 := check_suspicious_ip now log st
       let p2 := check_login_attempts now log (pushAlert p1.2 p1.1)
       let p3 := check_suspicious_dns now log (pushAlert (check_login_attempts now log
         (pushAlert p1.2 p1.1)).2 p2.1)
       p1.1.toList ++ p2.1.toList ++ p3.1.toList) ∧
    (analyze_log now log st).2.alerts_database =
      st.alerts_database ++ (analyze_log now log st).1 := by
  refine ⟨?_, analyze_log_db now log st⟩
  rw [analyze_log_eq]

/-- C6: for a log whose source address is blacklisted, analyze_log returns
exactly one SUSPICIOUS_SOURCE_IP alert whatever the protocol and payload,
that alert has severity HIGH, and the suspicious-IP rule itself leaves the
whole state (in particular the attempt tracker) unchanged. -/
theorem C6_blacklisted_source (now : String) (log : NetworkLog) (st : AppState)
    (h : log.src_ip ∈ SUSPICIOUS_IPS) :
    (analyze_log now log st).1.countP (fun a => a.alert_type == "SUSPICIOUS_SOURCE_IP") = 1 ∧
    (∀ a ∈ (analyze_log now log st).1,
      a.alert_type = "SUSPICIOUS_SOURCE_IP" → a.severity = "HIGH") ∧
    (check_suspicious_ip now log st).2 = st := by
  refine ⟨analyze_log_srcip_count now log st h, ?_, check_suspicious_ip_state now log st⟩
  intro a ha htype
  rcases analyze_log_mem_types now log st a ha with ⟨-, hsev⟩ | ⟨ht, -⟩ | ⟨-, hsev⟩
  · exact hsev
  · exact absurd (ht.symm.trans htype) (by decide)
  · exact hsev

/-- Witness for C6 at a concrete blacklisted source. -/
def wLogIP : NetworkLog :=
  { src_ip := "192.168.100.100", dst_ip := "10.0.0.1", protocol := "TCP",
    payload := none, timestamp := "t0" }

theorem C6_blacklisted_source_witness :
    (analyze_log "t" wLogIP initialAppState).1.countP
        (fun a => a.alert_type == "SUSPICIOUS_SOURCE_IP") = 1 ∧
    (∀ a ∈ (analyze_log "t" wLogIP initialAppState).1,
      a.alert_type = "SUSPICIOUS_SOURCE_IP" → a.severity = "HIGH") ∧
    (check_suspicious_ip "t" wLogIP initialAppState).2 = initialAppState :=
  C6_blacklisted_source "t" wLogIP initialAppState (by decide)

/-- C3: starting from the initial state, no source ever holds more than 10
tracked timestamps after any sequence of evaluations; and when a source
already holds 10 timestamps and an 11th qualifying event arrives, the new
entry is the old one with its oldest (head) element evicted plus the new
timestamp, i.e. the 10 most recent are kept. -/
theorem C3_tracker_cap_and_eviction :
    (∀ (now : String) (logs : List NetworkLog) (ip : String),
      ((runLogs now logs initialAppState).login_attempts ip).length ≤ 10) ∧
    (∀ (now : String) (log : NetworkLog) (st : AppState),
      keywordHit log = true →
      (st.login_attempts log.src_ip).length = 10 →
      (analyze_log now log st).2.login_attempts log.src_ip =
        (st.login_attempts log.src_ip).drop 1 ++ [log.timestamp]) := by
  constructor
  · intro now logs ip
    exact runLogs_tracker_le now logs initialAppState
      (fun _ => by simp [initialAppState]) ip
  · intro now log st hq hlen
    rw [analyze_log_tracker]
    simp only [hq, if_true]
    rw [track_attempts_self]
    have hlen11 : (st.login_attempts log.src_ip ++ [log.timestamp]).length = 11 := by
      simp [hlen]
    rw [hlen11]
    rw [if_pos (by omega)]
    have h110 : 11 - 10 = 1 := rfl
    rw [h110, List.drop_append_of_le_length (by omega)]

/-- Witness state for the C3 eviction clause: one source with exactly 10
tracked timestamps. -/
def wStTen : AppState :=
  { alerts_database := []
    login_attempts := fun ip =>
      if ip = "9.9.9.9"
      then ["t1", "t2", "t3", "t4", "t5", "t6", "t7", "t8", "t9", "t10"]
      else [] }

def wLogEleven : NetworkLog :=
  { src_ip := "9.9.9.9", dst_ip := "10.0.0.1", protocol := "HTTP",
    payload := some "GET /login", timestamp := "t11" }

theorem C3_tracker_cap_and_eviction_witness :
    ((runLogs "t" [] initialAppState).login_attempts "x").length ≤ 10 ∧
    (analyze_log "t" wLogEleven wStTen).2.login_attempts "9.9.9.9" =
      (wStTen.login_attempts "9.9.9.9").drop 1 ++ ["t11"] :=
  ⟨C3_tracker_cap_and_eviction.1 "t" [] "x",
   C3_tracker_cap_and_eviction.2 "t" wLogEleven wStTen (by decide) (by decide)⟩

/-- C10: every EXCESSIVE_LOGIN_ATTEMPTS alert returned by analyze_log has
attempt_count metadata equal to the length of the emitting source's
tracker entry after the append and truncation of that call, and that
length lies between 5 and 10 inclusive. -/
theorem C10_attempt_count_meta (now : String) (log : NetworkLog) (st : AppState) :
    ∀ a ∈ (analyze_log now log st).1, a.alert_type = "EXCESSIVE_LOGIN_ATTEMPTS" →
      a.metadata.lookup "attempt_count" =
        some (MetaVal.nat ((analyze_log now log st).2.login_attempts log.src_ip).length) ∧
      5 ≤ ((analyze_log now log st).2.login_attempts log.src_ip).length ∧
      ((analyze_log now log st).2.login_attempts log.src_ip).length ≤ 10 := by
  intro a ha htype
  rw [analyze_log_eq] at ha
  dsimp only at ha
  rw [List.mem_append, List.mem_append] at ha
  rcases ha with (ha | ha) | ha
  · rw [Option.mem_toList, Option.mem_def] at ha
    obtain ⟨ht, -⟩ := check_suspicious_ip_some now log st a ha
    exact absurd (ht.symm.trans htype) (by decide)
  · rw [Option.mem_toList, Option.mem_def] at ha
    cases hk : keywordHit log with
    | false =>
      rw [check_login_attempts_not_hit now log _ hk] at ha
      cases ha
    | true =>
      have hst1 : (pushAlert (check_suspicious_ip now log st).2
          (check_suspicious_ip now log st).1).login_attempts = st.login_attempts := by
        rw [pushAlert_login_attempts, check_suspicious_ip_state]
      obtain ⟨-, -, hmeta, hge⟩ := check_login_attempts_some now log _ a ha
      rw [hst1] at hmeta hge
      have hfinal : (analyze_log now log st).2.login_attempts log.src_ip =
          track_attempts st.login_attempts log.src_ip log.timestamp log.src_ip := by
        rw [analyze_log_tracker]
        simp only [hk, if_true]
      rw [hfinal]
      exact ⟨hmeta, hge, track_attempts_le_ten _ _ _⟩
  · rw [Option.mem_toList, Option.mem_def] at ha
    obtain ⟨ht, -⟩ := check_suspicious_dns_some now log _ a ha
    exact absurd (ht.symm.trans htype) (by decide)

/-- Witness state for C10: one source already holding 4 tracked
timestamps, so the next qualifying log fires with attempt_count 5. -/
def wStFour : AppState :=
  { alerts_database := []
    login_attempts := fun ip => if ip = "9.9.9.8" then ["t1", "t2", "t3", "t4"] else [] }

def wLogFive : NetworkLog :=
  { src_ip := "9.9.9.8", dst_ip := "10.0.0.1", protocol := "HTTP",
    payload := some "POST /login user=bob", timestamp := "t5" }

def wAlertFive : Alert :=
  { alert_id := "ALERT-t-1", severity := "MEDIUM", alert_type := "EXCESSIVE_LOGIN_ATTEMPTS",
    description := "Multiple login attempts detected from 9.9.9.8",
    src_ip := "9.9.9.8", dst_ip := "10.0.0.1", protocol := "HTTP", timestamp := "t5",
    metadata := [("attempt_count", MetaVal.nat 5),
                 ("payload_snippet", MetaVal.str "POST /login user=bob")] }

theorem C10_attempt_count_meta_witness :
    wAlertFive.metadata.lookup "attempt_count" =
      some (MetaVal.nat ((analyze_log "t" wLogFive wStFour).2.login_attempts
        wLogFive.src_ip).length) ∧
    5 ≤ ((analyze_log "t" wLogFive wStFour).2.login_attempts wLogFive.src_ip).length ∧
    ((analyze_log "t" wLogFive wStFour).2.login_attempts wLogFive.src_ip).length ≤ 10 :=
  C10_attempt_count_meta "t" wLogFive wStFour wAlertFive (by decide) rfl

/-- C2: for a fixed source address, over any run of qualifying HTTP logs
(payload containing the keyword "login", case-folded) starting from an
empty tracker entry, request number n+1 produces no
EXCESSIVE_LOGIN_ATTEMPTS alert while n+1 is at most 4 and produces exactly
one, of severity MEDIUM, for every n+1 of at least 5 — the alert re-fires
on every later qualifying request, since the tracked count never drops
below the threshold. -/
theorem C2_login_alert_cadence (now : String) (items : List NetworkLog) (s : String)
    (st0 : AppState) (hs : ∀ l ∈ items, l.src_ip = s) (hq : ∀ l ∈ items, loginHit l = true)
    (h0 : st0.login_attempts s = []) (n : Nat) (hn : n < items.length) :
    ((analyze_log now (items.get ⟨n, hn⟩) (runLogs now (items.take n) st0)).1.countP
        (fun a => a.alert_type == "EXCESSIVE_LOGIN_ATTEMPTS") =
      if 5 ≤ n + 1 then 1 else 0) ∧
    ∀ a ∈ (analyze_log now (items.get ⟨n, hn⟩) (runLogs now (items.take n) st0)).1,
      a.alert_type = "EXCESSIVE_LOGIN_ATTEMPTS" → a.severity = "MEDIUM" := by
  have hlog : items.get ⟨n, hn⟩ ∈ items := List.get_mem items n hn
  have hsrc : (items.get ⟨n, hn⟩).src_ip = s := hs _ hlog
  have hkw : keywordHit (items.get ⟨n, hn⟩) = true :=
    keywordHit_of_loginHit _ (hq _ hlog)
  have htakeLen : (items.take n).length = n := by
    rw [List.length_take]; omega
  have hcnt : ((runLogs now (items.take n) st0).login_attempts s).length = min n 10 := by
    rw [runLogs_tracker_count now (items.take n) s st0
      (fun l hl => hs l (List.take_subset n items hl))
      (fun l hl => keywordHit_of_loginHit l (hq l (List.take_subset n items hl)))
      (by rw [h0]; simp), h0]
    simp [htakeLen]
  constructor
  · rw [analyze_log_excessive_count]
    have htr : (track_attempts (runLogs now (items.take n) st0).login_attempts
        (items.get ⟨n, hn⟩).src_ip (items.get ⟨n, hn⟩).timestamp
        (items.get ⟨n, hn⟩).src_ip).length = min (min n 10 + 1) 10 := by
      rw [track_attempts_length, hsrc, hcnt]
    have hiff : (keywordHit (items.get ⟨n, hn⟩) = true ∧
        5 ≤ (track_attempts (runLogs now (items.take n) st0).login_attempts
          (items.get ⟨n, hn⟩).src_ip (items.get ⟨n, hn⟩).timestamp
          (items.get ⟨n, hn⟩).src_ip).length) ↔ (5 ≤ n + 1) := by
      rw [htr]
      constructor
      · intro hx; omega
      · intro h5; exact ⟨hkw, by omega⟩
    simp only [hiff]
  · intro a ha htype
    rcases analyze_log_mem_types now _ _ a ha with ⟨ht, -⟩ | ⟨-, hsev⟩ | ⟨ht, -⟩
    · exact absurd (ht.symm.trans htype) (by decide)
    · exact hsev
    · exact absurd (ht.symm.trans htype) (by decide)

/-- Witness setup for C2: five identical qualifying login requests. -/
def wLoginLog : NetworkLog :=
  { src_ip := "9.9.9.9", dst_ip := "10.0.0.1", protocol := "HTTP",
    payload := some "POST /login user=admin", timestamp := "t0" }

def wLoginItems : List NetworkLog := List.replicate 5 wLoginLog

theorem C2_login_alert_cadence_witness :
    ((analyze_log "t" (wLoginItems.get ⟨4, by decide⟩)
        (runLogs "t" (wLoginItems.take 4) initialAppState)).1.countP
        (fun a => a.alert_type == "EXCESSIVE_LOGIN_ATTEMPTS") =
      if 5 ≤ 4 + 1 then 1 else 0) ∧
    ∀ a ∈ (analyze_log "t" (wLoginItems.get ⟨4, by decide⟩)
        (runLogs "t" (wLoginItems.take 4) initialAppState)).1,
      a.alert_type = "EXCESSIVE_LOGIN_ATTEMPTS" → a.severity = "MEDIUM" :=
  C2_login_alert_cadence "t" wLoginItems "9.9.9.9" initialAppState
    (by decide) (by decide) rfl 4 (by decide)

/-- C4: on a DNS log with non-empty payload, the suspicious-DNS rule tests
the case-folded payload against the fixed ordered pattern list; when no
pattern matches it emits nothing, and when the first matching pattern (in
list order) is the one at position i, it emits exactly one HIGH-severity
SUSPICIOUS_DNS_QUERY alert whose matched_pattern metadata is that very
pattern — later-matching patterns are never consulted — and the state is
untouched. -/
theorem C4_dns_first_match (now : String) (log : NetworkLog) (st : AppState) (p : String)
    (hproto : log.protocol = "DNS") (hpay : log.payload = some p) (hne : p ≠ "") :
    ((∀ pp ∈ SUSPICIOUS_DNS_PATTERNS, pp.2 (strToLower p) = false) →
      check_suspicious_dns now log st = (none, st)) ∧
    ∀ (i : Nat) (hi : i < SUSPICIOUS_DNS_PATTERNS.length),
      (SUSPICIOUS_DNS_PATTERNS.get ⟨i, hi⟩).2 (strToLower p) = true →
      (∀ j (hj : j < i),
        (SUSPICIOUS_DNS_PATTERNS.get ⟨j, Nat.lt_trans hj hi⟩).2 (strToLower p) = false) →
      check_suspicious_dns now log st =
        (some { alert_id := generate_alert_id now st.alerts_database.length
                severity := "HIGH"
                alert_type := "SUSPICIOUS_DNS_QUERY"
                description := "Suspicious DNS query detected: " ++ p
                src_ip := log.src_ip
                dst_ip := log.dst_ip
                protocol := log.protocol
                timestamp := log.timestamp
                metadata := [("query", MetaVal.str p),
                             ("matched_pattern",
                              MetaVal.str (SUSPICIOUS_DNS_PATTERNS.get ⟨i, hi⟩).1)] }, st) := by
  constructor
  · intro hnone
    unfold check_suspicious_dns
    rw [hpay]
    dsimp only
    rw [if_pos ⟨hproto, hne⟩]
    rw [List.find?_eq_none.mpr (fun pp hpp => by rw [hnone pp hpp]; exact Bool.false_ne_true)]
  · intro i hi hp hless
    unfold check_suspicious_dns
    rw [hpay]
    dsimp only
    rw [if_pos ⟨hproto, hne⟩]
    rw [find?_first (fun pp => pp.2 (strToLower p)) SUSPICIOUS_DNS_PATTERNS i hi hp hless]

/-- Witness log for C4: the payload matches both the first pattern (the
.ru suffix) and a later one (the malware keyword); the alert records the
first. -/
def wLogDNS : NetworkLog :=
  { src_ip := "10.1.1.1", dst_ip := "10.1.1.2", protocol := "DNS",
    payload := some "malware.ru", timestamp := "t0" }

theorem C4_dns_first_match_witness :
    check_suspicious_dns "t" wLogDNS initialAppState =
      (some { alert_id := generate_alert_id "t" initialAppState.alerts_database.length
              severity := "HIGH"
              alert_type := "SUSPICIOUS_DNS_QUERY"
              description := "Suspicious DNS query detected: " ++ "malware.ru"
              src_ip := wLogDNS.src_ip
              dst_ip := wLogDNS.dst_ip
              protocol := wLogDNS.protocol
              timestamp := wLogDNS.timestamp
              metadata := [("query", MetaVal.str "malware.ru"),
                           ("matched_pattern",
                            MetaVal.str (SUSPICIOUS_DNS_PATTERNS.get
                              ⟨0, by decide⟩).1)] }, initialAppState) :=
  (C4_dns_first_match "t" wLogDNS initialAppState "malware.ru" rfl rfl (by decide)).2
    0 (by decide) (by decide) (fun j hj => absurd hj (Nat.not_lt_zero j))

/-! ### Helper lemmas for the feature aligner -/

theorem lookup_mem {β : Type} {l : List (String × β)} {k : String} {v : β}
    (h : l.lookup k = some v) : (k, v) ∈ l := by
  induction l with
  | nil => cases h
  | cons x xs ih =>
    obtain ⟨k', v'⟩ := x
    simp only [List.lookup] at h
    cases hk : (k == k') with
    | true =>
      rw [hk] at h
      cases h
      have : k = k' := eq_of_beq hk
      subst this
      exact List.mem_cons_self _ _
    | false =>
      rw [hk] at h
      exact List.mem_cons_of_mem _ (ih h)

theorem lookup_append_some {β : Type} {l1 l2 : List (String × β)} {k : String} {v : β}
    (h : l1.lookup k = some v) : (l1 ++ l2).lookup k = some v := by
  induction l1 with
  | nil => cases h
  | cons x xs ih =>
    obtain ⟨k', v'⟩ := x
    rw [List.cons_append]
    simp only [List.lookup] at h ⊢
    cases hk : (k == k') with
    | true => rw [hk] at h; exact h
    | false => rw [hk] at h; exact ih h

theorem dict_str_mem (f : MLFeatures) (k s : String)
    (h : (k, FeatVal.str s) ∈ f.dict) : k ∈ categorical_cols := by
  simp only [MLFeatures.dict, List.mem_cons, List.not_mem_nil, or_false,
    Prod.mk.injEq] at h
  simp only [categorical_cols, List.mem_cons, List.not_mem_nil, or_false]
  tauto

theorem encode_col_mem (E : List (String × LabelEncoder)) (d : List (String × FeatVal))
    (col : String) (kv : String × FeatVal) (h : kv ∈ encode_col E d col) :
    kv ∈ d ∨ ∃ q, kv.2 = FeatVal.num q := by
  unfold encode_col at h
  cases hE : E.lookup col with
  | none => rw [hE] at h; exact Or.inl h
  | some le =>
    rw [hE] at h
    dsimp only at h
    rw [List.mem_append] at h
    rcases h with h | h
    · exact Or.inl h
    · rw [List.mem_singleton] at h
      subst h
      exact Or.inr ⟨_, rfl⟩

theorem foldl_encode_mem (E : List (String × LabelEncoder)) (cols : List String)
    (d : List (String × FeatVal)) (kv : String × FeatVal)
    (h : kv ∈ cols.foldl (encode_col E) d) : kv ∈ d ∨ ∃ q, kv.2 = FeatVal.num q := by
  induction cols generalizing d with
  | nil => exact Or.inl h
  | cons c cs ih =>
    rw [List.foldl_cons] at h
    rcases ih _ h with h' | h'
    · exact encode_col_mem E d c kv h'
    · exact Or.inr h'

/-- Any string-valued cell of the encoded dataframe sits in one of the
three raw categorical columns: the appended encoded cells are numeric and
every other dict field is numeric. -/
theorem encoded_df_str_key (E : List (String × LabelEncoder)) (f : MLFeatures)
    (k s : String) (h : (encoded_df E f).lookup k = some (FeatVal.str s)) :
    k ∈ categorical_cols := by
  have hm := lookup_mem h
  rcases foldl_encode_mem E categorical_cols f.dict _ hm with h' | h'
  · exact dict_str_mem f k s h'
  · obtain ⟨q, hq⟩ := h'
    simp at hq

/-- The value the aligner places in the output vector for one trained
feature name: the dataframe cell when present and numeric, 0 otherwise. -/
def alignVal (d : List (String × FeatVal)) (feature : String) : ℚ :=
  match d.lookup feature with
  | some (FeatVal.num q) => q
  | _ => 0

theorem castAll_nil : castAll [] = some [] := rfl

theorem castAll_num (k : String) (q : ℚ) (rest : List (String × FeatVal)) :
    castAll ((k, FeatVal.num q) :: rest) = (castAll rest).map (fun r => (k, q) :: r) := rfl

theorem castAll_map (d : List (String × FeatVal)) (fts : List String)
    (h : ∀ feature ∈ fts, ∀ s, d.lookup feature ≠ some (FeatVal.str s)) :
    castAll (fts.map (fun feature =>
      match d.lookup feature with
      | some v => (feature, v)
      | none => (feature, FeatVal.num 0))) =
    some (fts.map (fun feature => (feature, alignVal d feature))) := by
  induction fts with
  | nil => rfl
  | cons feature rest ih =>
    have hrest : ∀ x ∈ rest, ∀ s, d.lookup x ≠ some (FeatVal.str s) :=
      fun x hx s => h x (List.mem_cons_of_mem _ hx) s
    rw [List.map_cons, List.map_cons]
    cases hd : d.lookup feature with
    | none =>
      dsimp only
      rw [castAll_num, ih hrest]
      simp [alignVal, hd]
    | some v =>
      cases v with
      | num q =>
        dsimp only
        rw [castAll_num, ih hrest]
        simp [alignVal, hd]
      | str s => exact absurd hd (h feature (List.mem_cons_self _ _) s)

/-! ### Claim theorems for the feature aligner and prediction wrapper -/

/-- C1: with the encoder set and the trained feature ordering loaded (the
trained ordering names categorical information through the encoded
columns, never through the three raw string columns), the aligner returns
without error a vector whose fields are exactly the trained ordering in
that order; each trained feature present in the encoded dataframe keeps
its (numeric) value, each absent one is filled with 0, input fields
outside the ordering are dropped (the output has no other fields), and
all output values are rationals (floats). Moreover the encoding step maps
a categorical value the trained encoder does not know to the fallback
code 0 instead of propagating the lookup failure. -/
theorem C1_schema_projection (st : MLState) (E : List (String × LabelEncoder))
    (fts : List String) (f : MLFeatures)
    (hE : st.encoders = some E) (hF : st.features = some fts)
    (hcat : ∀ c ∈ categorical_cols, c ∉ fts) :
    prepare_features_for_prediction st f =
      Except.ok (fts.map (fun feature => (feature, alignVal (encoded_df E f) feature))) ∧
    ∀ (d : List (String × FeatVal)) (col : String) (le : LabelEncoder) (v : String),
      E.lookup col = some le → d.lookup col = some (FeatVal.str v) →
      le.transform v = none →
      encode_col E d col = d ++ [(col ++ "_encoded", FeatVal.num 0)] := by
  constructor
  · unfold prepare_features_for_prediction
    rw [hE]
    dsimp only
    rw [hF]
    dsimp only
    rw [castAll_map (encoded_df E f) fts
      (fun feature hmem s hlk =>
        hcat feature (encoded_df_str_key E f feature s hlk) hmem)]
  · intro d col le v hle hdv htr
    unfold encode_col
    rw [hle]
    dsimp only
    rw [hdv]
    dsimp only
    rw [htr]

/-- Witness artifacts: a trained ordering that misses most input fields
and contains a field the input does not have, plus encoders for two of
the categorical columns, the one for service not knowing the default
value http. -/
def wEncoders : List (String × LabelEncoder) :=
  [("protocol_type", ⟨["icmp", "tcp", "udp"]⟩), ("service", ⟨["ftp", "smtp"]⟩)]

def wFts : List String :=
  ["duration", "protocol_type_encoded", "src_bytes", "bogus_feature"]

def wMLPartial : MLState :=
  { binary := none, multi := none, encoders := some wEncoders, features := some wFts,
    attack_mapping := none, models_loaded := false }

theorem C1_schema_projection_witness :
    prepare_features_for_prediction wMLPartial ({} : MLFeatures) =
      Except.ok (wFts.map (fun feature =>
        (feature, alignVal (encoded_df wEncoders ({} : MLFeatures)) feature))) ∧
    encode_col wEncoders (MLFeatures.dict {}) "service" =
      MLFeatures.dict {} ++ [("service_encoded", FeatVal.num 0)] :=
  ⟨(C1_schema_projection wMLPartial wEncoders wFts {} rfl rfl (by decide)).1,
   (C1_schema_projection wMLPartial wEncoders wFts {} rfl rfl (by decide)).2
     (MLFeatures.dict {}) "service" ⟨["ftp", "smtp"]⟩ "http" rfl rfl rfl⟩

/-- If the trained feature ordering was never assigned by the loader, the
loader cannot have reported success. -/
theorem load_features_none_not_loaded (dirExists : Bool)
    (b : Except String BinClassifier) (m : Except String MultiClassifier)
    (e : Except String (List (String × LabelEncoder)))
    (f : Except String (List String))
    (am : Except String (List (String × String)))
    (hf : (load_ml_models dirExists b m e f am).features = none) :
    (load_ml_models dirExists b m e f am).models_loaded = false := by
  cases dirExists <;> cases b <;> cases m <;> cases e <;> cases f <;> cases am <;>
    simp_all [load_ml_models]

/-- C7: in any state the loader can actually produce in which the trained
feature-name ordering is missing, a binary prediction call returns a
structured result with model_available = false and status = "error" (the
capability is degraded, never reported as an inference-time failure with
model_available = true); and whenever the aligner does run without its
ordering (encoders present, ordering absent), it fails with the explicit
configuration error instead of silently defaulting. -/
theorem C7_missing_ordering_artifact (dirExists : Bool)
    (b : Except String BinClassifier) (m : Except String MultiClassifier)
    (e : Except String (List (String × LabelEncoder)))
    (f : Except String (List String))
    (am : Except String (List (String × String)))
    (now : String) (feats : MLFeatures)
    (hf : (load_ml_models dirExists b m e f am).features = none) :
    (predict_binary now (load_ml_models dirExists b m e f am) feats).model_available
        = false ∧
    (predict_binary now (load_ml_models dirExists b m e f am) feats).status = "error" ∧
    ∀ E, (load_ml_models dirExists b m e f am).encoders = some E →
      prepare_features_for_prediction (load_ml_models dirExists b m e f am) feats =
        Except.error "Feature list not loaded from training" := by
  have hload := load_features_none_not_loaded dirExists b m e f am hf
  have hmain : predict_binary now (load_ml_models dirExists b m e f am) feats =
      modelUnavailableResponse now := by
    unfold predict_binary
    rw [if_pos hload]
  refine ⟨by rw [hmain]; rfl, by rw [hmain]; rfl, ?_⟩
  intro E hE
  unfold prepare_features_for_prediction
  rw [hE]
  dsimp only
  rw [hf]

/-- Witness for C7: the loader fails at the feature-ordering artifact
after the classifiers and encoders loaded. -/
def wBin : BinClassifier :=
  { predictFn := fun _ => 0, predictProbaFn := fun _ => [1, 0] }

def wMulti : MultiClassifier :=
  { classes := ["dos", "normal"], predictFn := fun _ => "normal",
    predictProbaFn := fun _ => [1/4, 3/4] }

theorem C7_missing_ordering_artifact_witness :
    (predict_binary "t" (load_ml_models true (Except.ok wBin) (Except.ok wMulti)
        (Except.ok wEncoders) (Except.error "no such file") (Except.ok []))
        ({} : MLFeatures)).model_available = false ∧
    (predict_binary "t" (load_ml_models true (Except.ok wBin) (Except.ok wMulti)
        (Except.ok wEncoders) (Except.error "no such file") (Except.ok []))
        ({} : MLFeatures)).status = "error" ∧
    prepare_features_for_prediction (load_ml_models true (Except.ok wBin)
        (Except.ok wMulti) (Except.ok wEncoders) (Except.error "no such file")
        (Except.ok [])) ({} : MLFeatures) =
      Except.error "Feature list not loaded from training" :=
  ⟨(C7_missing_ordering_artifact true (Except.ok wBin) (Except.ok wMulti)
      (Except.ok wEncoders) (Except.error "no such file") (Except.ok []) "t" {} rfl).1,
   (C7_missing_ordering_artifact true (Except.ok wBin) (Except.ok wMulti)
      (Except.ok wEncoders) (Except.error "no such file") (Except.ok []) "t" {} rfl).2.1,
   (C7_missing_ordering_artifact true (Except.ok wBin) (Except.ok wMulti)
      (Except.ok wEncoders) (Except.error "no such file") (Except.ok []) "t" {} rfl).2.2
     wEncoders rfl⟩

/-- C8: with no binary classifier loaded, predict_binary returns the fixed
structured unavailable response — model_available = false, status =
"error", the explanatory message — and, being a total function returning
that value, neither raises nor attempts inference. -/
theorem C8_binary_unavailable (now : String) (st : MLState) (feats : MLFeatures)
    (h : st.binary = none) :
    predict_binary now st feats = modelUnavailableResponse now ∧
    (predict_binary now st feats).model_available = false ∧
    (predict_binary now st feats).status = "error" ∧
    (predict_binary now st feats).message =
      "ML model not loaded. Please train the model first." := by
  have hmain : predict_binary now st feats = modelUnavailableResponse now := by
    unfold predict_binary
    split
    · rfl
    · rw [h]
  exact ⟨hmain, by rw [hmain]; rfl, by rw [hmain]; rfl, by rw [hmain]; rfl⟩

theorem C8_binary_unavailable_witness :
    predict_binary "t" wMLPartial ({} : MLFeatures) = modelUnavailableResponse "t" ∧
    (predict_binary "t" wMLPartial ({} : MLFeatures)).model_available = false ∧
    (predict_binary "t" wMLPartial ({} : MLFeatures)).status = "error" ∧
    (predict_binary "t" wMLPartial ({} : MLFeatures)).message =
      "ML model not loaded. Please train the model first." :=
  C8_binary_unavailable "t" wMLPartial {} rfl

/-- C9: a successful multi-class prediction renders the human-readable
label as the raw predicted class name upper-cased, takes its confidence
from the probability row at the position of the predicted class NAME in
the classifier class list (not at a numeric class index), rounds the
confidence to 4 decimal places, and rounds every entry of the per-class
probability mapping to 4 decimal places as well. -/
theorem C9_multiclass_rendering (now : String) (st : MLState) (model : MultiClassifier)
    (feats : MLFeatures) (X : List (String × ℚ)) (idx : Nat) (p : ℚ)
    (hm : st.multi = some model) (hl : st.models_loaded = true)
    (hX : prepare_features_for_prediction st feats = Except.ok X)
    (hidx : model.classes.indexOf? (model.predictFn X) = some idx)
    (hp : (model.predictProbaFn X).get? idx = some p) :
    predict_multiclass now st feats =
      { status := "success"
        model_available := true
        prediction := some (model.predictFn X)
        prediction_label := some (strToUpper (model.predictFn X))
        confidence := some (round4 p)
        probabilities := some ((model.classes.zip (model.predictProbaFn X)).map
          (fun cp => (strToUpper cp.1, round4 cp.2)))
        message := "Prediction: " ++ strToUpper (model.predictFn X)
        timestamp := now } := by
  unfold predict_multiclass
  rw [if_neg (by simp [hl])]
  rw [hm]
  dsimp only
  rw [hX]
  dsimp only
  rw [hidx]
  dsimp only
  rw [hp]

/-- Witness state for C9: all artifacts loaded; the bundled two-class
model predicts the class named normal. -/
def wMLReady : MLState :=
  { binary := some wBin, multi := some wMulti, encoders := some wEncoders,
    features := some wFts, attack_mapping := some [], models_loaded := true }

def wX : List (String × ℚ) :=
  [("duration", 0), ("protocol_type_encoded", 1), ("src_bytes", 0), ("bogus_feature", 0)]

theorem C9_multiclass_rendering_witness :
    predict_multiclass "t" wMLReady ({} : MLFeatures) =
      { status := "success"
        model_available := true
        prediction := some (wMulti.predictFn wX)
        prediction_label := some (strToUpper (wMulti.predictFn wX))
        confidence := some (round4 (3/4))
        probabilities := some ((wMulti.classes.zip (wMulti.predictProbaFn wX)).map
          (fun cp => (strToUpper cp.1, round4 cp.2)))
        message := "Prediction: " ++ strToUpper (wMulti.predictFn wX)
        timestamp := "t" } :=
  C9_multiclass_rendering "t" wMLReady wMulti {} wX 1 (3/4) rfl rfl rfl rfl rfl

end NetSentry
